import Mathlib

/-!
Verification of the yatb trading-bot core (signal digestion, trade
lifecycle, fund allocation) against its design document.

The embedding follows `bot.js` (the orchestrator).  Two variants of the
orchestrator exist in the source; the newer one (the one holding the
Bottleneck limiter) is embedded as `digestSignal` and friends, the older
one (whose digestion takes the `isFinal` flag directly) as
`digestAdviceOld`.  Quantities and balances are modelled as rationals;
the exchange adapter's `clampQuantity`, and the success of the Trade
class's entry order and close, are parameters, so every theorem
quantifies over all adapter behaviours.
-/

namespace Yatb

/-- Per-chart exchange metadata (`chart.info`): the base and quote asset
of the traded symbol. -/
structure ChartInfo where
  baseAsset : String
  quoteAsset : String
deriving DecidableEq, Repr

/-- A chart registered in the orchestrator's `this.charts` registry. -/
structure Chart where
  id : String
  name : String
  info : ChartInfo
deriving DecidableEq, Repr

/-- An advisor registered in `this.advisors`.  `margin` is only used by
the older orchestrator variant (`amount = funds * advisor.margin`). -/
structure Advisor where
  name : String
  chartIds : List String
  margin : Rat := 0
deriving DecidableEq, Repr

/-- One entry of the orchestrator's `this.trades` list.  Fields are the
ones `Trade.initialize` receives and the digestion code reads back. -/
structure Trade where
  id : String
  advisorId : String
  chartId : String
  who : String
  isLong : Bool
  quantity : Rat
  isOpen : Bool
deriving DecidableEq, Repr

/-- The strategy descriptor attached to an advice.  `risk` models
`parseFloat(strategy.config.trade.risk || 0)`. -/
structure Strategy where
  name : String
  risk : Rat
deriving DecidableEq, Repr

/-- The fund ledger `this.funds`: per-asset available balance. -/
abbrev Funds := List (String × Rat)

/-- `(this.funds[asset] && this.funds[asset].available) || 0`. -/
def fundsAvailable (funds : Funds) (asset : String) : Rat :=
  match funds.find? (fun p => p.1 == asset) with
  | some p => p.2
  | none => 0

/-- Look a chart up in the registry by id (`this.charts[chartId]`). -/
def findChart (charts : List Chart) (chartId : String) : Option Chart :=
  charts.find? (fun c => c.id == chartId)

/-- Look an advisor up by id (`this.advisors[advisorId]`). -/
def findAdvisor (advisors : List (String × Advisor)) (advisorId : String) : Option Advisor :=
  (advisors.find? (fun p => p.1 == advisorId)).map (fun p => p.2)

/-- Sum of trade quantities, as the source's
`reduce((quantity, trade) => quantity + trade.quantity, 0)`. -/
def sumQuantities (trades : List Trade) : Rat :=
  trades.foldl (fun q t => q + t.quantity) 0

/-- The double-spend guard of `digestAdvice`: quantity locked by open
trades, summing open longs whose chart's base asset is `asset` and open
shorts whose chart's quote asset is `asset` (source lines
`longsSellingBackAsset` / `shortsSellingBackAsset`). -/
def quantityLockedByTrades (charts : List Chart) (trades : List Trade) (asset : String) : Rat :=
  let longsSellingBackAsset := trades.filter
    (fun t => t.isLong && t.isOpen &&
      ((findChart charts t.chartId).map (fun c => c.info.baseAsset) == some asset))
  let shortsSellingBackAsset := trades.filter
    (fun t => !t.isLong && t.isOpen &&
      ((findChart charts t.chartId).map (fun c => c.info.quoteAsset) == some asset))
  sumQuantities longsSellingBackAsset + sumQuantities shortsSellingBackAsset

/-- The committed quantity exactly as the spec words it: open longs
selling the quote asset back and open shorts selling the base asset
back.  Stated for comparison with `quantityLockedByTrades`, the
computation the source performs. -/
def committedSpecWorded (charts : List Chart) (trades : List Trade) (asset : String) : Rat :=
  let longs := trades.filter
    (fun t => t.isLong && t.isOpen &&
      ((findChart charts t.chartId).map (fun c => c.info.quoteAsset) == some asset))
  let shorts := trades.filter
    (fun t => !t.isLong && t.isOpen &&
      ((findChart charts t.chartId).map (fun c => c.info.baseAsset) == some asset))
  sumQuantities longs + sumQuantities shorts

/-- Whether an open position would sell `asset` back to the market at
close: a long sells back its chart's base asset, a short its chart's
quote asset.  Single-pass spec-level reading used by the amended claim. -/
def sellsBackAsset (charts : List Chart) (t : Trade) (asset : String) : Bool :=
  if t.isLong then
    (findChart charts t.chartId).map (fun c => c.info.baseAsset) == some asset
  else
    (findChart charts t.chartId).map (fun c => c.info.quoteAsset) == some asset

/-- Committed quantity per the amended claim: one pass over the open
positions that would sell `asset` back. -/
def committedAmended (charts : List Chart) (trades : List Trade) (asset : String) : Rat :=
  sumQuantities (trades.filter (fun t => t.isOpen && sellsBackAsset charts t asset))

/-- Reason passed to `trade.close`. -/
inductive CloseReason where
  | signal
  | expire
deriving DecidableEq, Repr

/-- An order submission against the exchange adapter.  `viaLimiter`
records whether the call happened inside a task scheduled on the
Bottleneck limiter (`maxConcurrent: 1`). -/
structure Submission where
  isBuy : Bool
  quantity : Rat
  viaLimiter : Bool
deriving DecidableEq, Repr

/-- Observable outcome of digesting one signal: the updated trade list,
the close requests issued (`trade.close(reason)`), the order submissions
made, the pre-clamp sized amount when a LONG/SHORT was sized, and the
rejection message when the scheduled promise rejected. -/
structure DigestOutcome where
  trades : List Trade
  closeRequests : List (String × CloseReason)
  submissions : List Submission
  sizedAmount : Option Rat
  error : Option String
deriving DecidableEq, Repr

/-- An outcome that leaves the trade list unchanged and performs no
side effect. -/
def DigestOutcome.noop (trades : List Trade) (err : Option String) : DigestOutcome :=
  { trades := trades, closeRequests := [], submissions := [], sizedAmount := none, error := err }

/-- Mark the trade with the given id closed (effect of a successful
`trade.close`). -/
def closeById (trades : List Trade) (tradeId : String) : List Trade :=
  trades.map (fun t => if t.id == tradeId then { t with isOpen := false } else t)

/-- The body of the promise `digestAdvice` schedules on the limiter for
one signal (newer orchestrator variant).  `clamp` models the provider's
`clampQuantity`; `entryOk` whether `Trade.initialize` yields a trade
(its entry order went through); `closeOk` whether a requested
`trade.close` resolves.  The close of a matched CLOSE signal submits the
exit sell for the held quantity (Trade lifecycle, within the scheduled
task), a successful open submits the entry buy. -/
def digestSignal (clamp : Rat → ChartInfo → Bool → Rat) (entryOk closeOk : Bool)
    (advisors : List (String × Advisor)) (charts : List Chart) (funds : Funds)
    (trades : List Trade) (advisorId chartId : String) (strategy : Strategy)
    (signal : String) : DigestOutcome :=
  match findAdvisor advisors advisorId, findChart charts chartId with
  | some advisor, some chart =>
    let who := advisor.name ++ "→" ++ chart.name ++ "→" ++ strategy.name
    if signal == "CLOSE LONG" || signal == "CLOSE SHORT" then
      match trades.find? (fun t =>
          t.advisorId == advisorId && t.chartId == chartId && t.who == who && t.isOpen) with
      | some t =>
        if (signal == "CLOSE LONG" && t.isLong) || (signal == "CLOSE SHORT" && !t.isLong) then
          if closeOk then
            { trades := closeById trades t.id
              closeRequests := [(t.id, CloseReason.signal)]
              submissions := [{ isBuy := false, quantity := t.quantity, viaLimiter := true }]
              sizedAmount := none
              error := none }
          else
            { trades := trades
              closeRequests := [(t.id, CloseReason.signal)]
              submissions := [{ isBuy := false, quantity := t.quantity, viaLimiter := true }]
              sizedAmount := none
              error := some "close failed" }
        else DigestOutcome.noop trades none
      | none => DigestOutcome.noop trades none
    else if signal == "LONG" || signal == "SHORT" then
      let isLong := signal == "LONG"
      let asset := if isLong then chart.info.quoteAsset else chart.info.baseAsset
      let quantityLocked := quantityLockedByTrades charts trades asset
      let funds' := fundsAvailable funds asset - quantityLocked
      let amount := funds' * strategy.risk / 100
      let quantity := clamp amount chart.info isLong
      if 0 < quantity &&
          (trades.find? (fun t =>
            t.advisorId == advisorId && t.chartId == chartId && t.isOpen)).isNone then
        if entryOk then
          let t : Trade :=
            { id := "T" ++ toString (trades.length + 1)
              advisorId := advisorId
              chartId := chartId
              who := who
              isLong := isLong
              quantity := quantity
              isOpen := true }
          { trades := trades ++ [t]
            closeRequests := []
            submissions := [{ isBuy := true, quantity := quantity, viaLimiter := true }]
            sizedAmount := some amount
            error := none }
        else
          { trades := trades
            closeRequests := []
            submissions := [{ isBuy := true, quantity := quantity, viaLimiter := true }]
            sizedAmount := some amount
            error := none }
      else
        { trades := trades
          closeRequests := []
          submissions := []
          sizedAmount := some amount
          error := none }
    else
      DigestOutcome.noop trades
        (some ("Unable to process signal " ++ signal ++ " from " ++ strategy.name))
  | _, _ => DigestOutcome.noop trades (some "registry lookup failed")

/-- `digestAdvice` of the older orchestrator variant, which receives the
`isFinal` flag of the originating candle and guards the LONG/SHORT
branch with it; its sizing uses `funds * advisor.margin`. -/
def digestAdviceOld (clamp : Rat → ChartInfo → Bool → Rat) (entryOk closeOk : Bool)
    (advisors : List (String × Advisor)) (charts : List Chart) (funds : Funds)
    (trades : List Trade) (advisorId chartId : String) (strategy : Strategy)
    (isFinal : Bool) (signal : String) : DigestOutcome :=
  match findAdvisor advisors advisorId, findChart charts chartId with
  | some advisor, some chart =>
    let who := advisor.name ++ "->" ++ chart.name ++ "->" ++ strategy.name
    if signal == "CLOSE LONG" || signal == "CLOSE SHORT" then
      match trades.find? (fun t =>
          t.advisorId == advisorId && t.chartId == chartId && t.who == who && t.isOpen) with
      | some t =>
        if (signal == "CLOSE LONG" && t.isLong) || (signal == "CLOSE SHORT" && !t.isLong) then
          if closeOk then
            { trades := closeById trades t.id
              closeRequests := [(t.id, CloseReason.signal)]
              submissions := [{ isBuy := false, quantity := t.quantity, viaLimiter := false }]
              sizedAmount := none
              error := none }
          else
            { trades := trades
              closeRequests := [(t.id, CloseReason.signal)]
              submissions := [{ isBuy := false, quantity := t.quantity, viaLimiter := false }]
              sizedAmount := none
              error := some "close failed" }
        else DigestOutcome.noop trades none
      | none => DigestOutcome.noop trades none
    else if signal == "LONG" || signal == "SHORT" then
      if isFinal then
        let isLong := signal == "LONG"
        let asset := if isLong then chart.info.quoteAsset else chart.info.baseAsset
        let quantityLocked := quantityLockedByTrades charts trades asset
        let funds' := fundsAvailable funds asset - quantityLocked
        let amount := funds' * advisor.margin
        let quantity := clamp amount chart.info isLong
        if 0 < quantity &&
            (trades.find? (fun t =>
              t.advisorId == advisorId && t.chartId == chartId && t.isOpen)).isNone then
          if entryOk then
            let t : Trade :=
              { id := "T" ++ toString (trades.length + 1)
                advisorId := advisorId
                chartId := chartId
                who := who
                isLong := isLong
                quantity := quantity
                isOpen := true }
            { trades := trades ++ [t]
              closeRequests := []
              submissions := [{ isBuy := true, quantity := quantity, viaLimiter := false }]
              sizedAmount := some amount
              error := none }
          else
            { trades := trades
              closeRequests := []
              submissions := [{ isBuy := true, quantity := quantity, viaLimiter := false }]
              sizedAmount := some amount
              error := none }
        else
          { trades := trades
            closeRequests := []
            submissions := []
            sizedAmount := some amount
            error := none }
      else DigestOutcome.noop trades none
    else DigestOutcome.noop trades none
  | _, _ => DigestOutcome.noop trades (some "registry lookup failed")

/-- One task scheduled on the limiter: the advice data for one signal
together with the adapter behaviour during that task (the clamp result
and whether the entry order / close went through may differ per call). -/
structure SigEvent where
  clamp : Rat → ChartInfo → Bool → Rat
  entryOk : Bool
  closeOk : Bool
  charts : List Chart
  funds : Funds
  advisorId : String
  chartId : String
  strategy : Strategy
  signal : String

/-- Digest one scheduled task, keeping only the trade list. -/
def digestStep (advisors : List (String × Advisor)) (trades : List Trade)
    (e : SigEvent) : List Trade :=
  (digestSignal e.clamp e.entryOk e.closeOk advisors e.charts e.funds trades
    e.advisorId e.chartId e.strategy e.signal).trades

/-- Digest a whole sequence of scheduled tasks.  The Bottleneck limiter
(`maxConcurrent: 1`) runs one scheduled promise to completion at a time
in schedule order, so the digestion of a stream of signals is this fold. -/
def digestMany (advisors : List (String × Advisor)) (trades : List Trade)
    (events : List SigEvent) : List Trade :=
  events.foldl (digestStep advisors) trades

/-- Number of open trades for an `(advisorId, chartId)` pair. -/
def openCountFor (trades : List Trade) (a c : String) : Nat :=
  (trades.filter (fun t => t.advisorId == a && t.chartId == c && t.isOpen)).length

/-- The spec's invariant: at most one open position per pair. -/
def atMostOneOpen (trades : List Trade) : Prop :=
  ∀ a c, openCountFor trades a c ≤ 1

/-- The submissions made while processing a sequence of scheduled
tasks, each tagged with the index of its task in schedule order. -/
def digestTraceFrom (advisors : List (String × Advisor)) (n : Nat) (trades : List Trade) :
    List SigEvent → List (Nat × Submission)
  | [] => []
  | e :: es =>
    let out := digestSignal e.clamp e.entryOk e.closeOk advisors e.charts e.funds trades
      e.advisorId e.chartId e.strategy e.signal
    out.submissions.map (fun s => (n, s)) ++ digestTraceFrom advisors (n + 1) out.trades es

/-- Submission trace of a task sequence, indices starting at 0. -/
def digestTrace (advisors : List (String × Advisor)) (trades : List Trade)
    (events : List SigEvent) : List (Nat × Submission) :=
  digestTraceFrom advisors 0 trades events

/-- `Bot.closeTrades`: close every open trade with reason `expire`.
The exit sell of each close is made through the `sell` capability handed
to the Trade, which calls `provider.sell` directly — `closeTrades` does
not go through `limiter.schedule`, so these submissions are not limiter
tasks. -/
def closeTradesRequests (trades : List Trade) : List (String × CloseReason) :=
  (trades.filter (fun t => t.isOpen)).map (fun t => (t.id, CloseReason.expire))

/-- The order submissions caused by `Bot.closeTrades`: one exit sell per
open trade, outside the limiter. -/
def closeTradesSubmissions (trades : List Trade) : List Submission :=
  (trades.filter (fun t => t.isOpen)).map
    (fun t => { isBuy := false, quantity := t.quantity, viaLimiter := false })

/-- Events observable during shutdown: a close-with-reason-expire
operation resolving (successfully or not) for one trade, and the
`process.exit()` call. -/
inductive ShutdownEv where
  | closeResolve (tradeId : String) (ok : Bool)
  | exitProcess
deriving DecidableEq, Repr

/-- The shutdown path of `handleKeyPress` (`'y'` on the quit screen):
`await this.closeTrades()` — a `Promise.all` over `trade.close('expire')`
for every open trade — then `process.exit()`.  `closeOk` tells whether a
given trade's close resolves; if any rejects, the `await` throws, the
error is logged and `process.exit()` is never reached. -/
def quitTrace (closeOk : String → Bool) (trades : List Trade) : List ShutdownEv :=
  let opens := trades.filter (fun t => t.isOpen)
  let closes := opens.map (fun t => ShutdownEv.closeResolve t.id (closeOk t.id))
  if opens.all (fun t => closeOk t.id) then closes ++ [ShutdownEv.exitProcess] else closes

/-- The advisors field of the startup configuration as `initialize`
destructures it: absent (defaulted to `[]`), not an array, or a list of
entries each of which may fail to be a usable advisor id. -/
inductive AdvisorsField where
  | notArray
  | arr (ids : List (Option String))
deriving DecidableEq, Repr

/-- The startup configuration handed to the Bot constructor: either not
an object at all, or provider + advisors fields (absent provider
defaults to the empty string). -/
inductive BotConfig where
  | notObject
  | obj (provider : Option String) (advisors : AdvisorsField)
deriving DecidableEq, Repr

/-- A log line produced during startup, tagged with its level. -/
inductive StartupLog where
  | errorLog (message : String)
  | successLog (message : String)
deriving DecidableEq, Repr

/-- Result of `Bot.initialize`: the logs emitted and whether
`process.exit()` was reached (the catch-all of `initialize`). -/
structure StartupResult where
  logs : List StartupLog
  exited : Bool
deriving DecidableEq, Repr

/-- Processing of one advisor id inside `initialize`'s `concatMap`: a
non-string or empty id, a missing advisor module, or a malformed advisor
config each throw, but the throw is caught inside the loop, logged, and
the loop resolves and continues. -/
def advisorStartupLogs (advisorOk : String → Bool) (ids : List (Option String)) :
    List StartupLog :=
  (ids.enum.map (fun p =>
    match p.2 with
    | none => StartupLog.errorLog ("Advisor #" ++ toString (p.1 + 1) ++ " not configured properly")
    | some advisorId =>
      if advisorOk advisorId then StartupLog.successLog ("Advisor " ++ advisorId ++ " running")
      else StartupLog.errorLog ("Advisor " ++ advisorId ++ " failed to load")))

/-- `Bot.initialize` (newer variant), up to UI launch.  `providerOk`
tells whether `addProvider` resolves for a given provider id, and
`advisorOk` whether `addAdvisor` resolves for a given advisor id.  Only
a throw that escapes the outer `try` reaches the catch that calls
`process.exit()`; advisor errors are caught inside the per-advisor loop
and only logged. -/
def initializeBot (providerOk advisorOk : String → Bool) (config : BotConfig) :
    StartupResult :=
  match config with
  | BotConfig.notObject =>
    { logs := [StartupLog.errorLog "Bot not configured properly"], exited := true }
  | BotConfig.obj provider advisors =>
    let providerId := provider.getD ""
    if providerId.length == 0 then
      { logs := [StartupLog.errorLog "Provider not configured properly"], exited := true }
    else if !providerOk providerId then
      { logs := [StartupLog.errorLog ("Provider " ++ providerId ++ " failed to connect")]
        exited := true }
    else
      let providerLogs := [StartupLog.successLog ("Provider " ++ providerId ++ " connected")]
      match advisors with
      | AdvisorsField.notArray =>
        { logs := providerLogs ++ [StartupLog.errorLog "Advisors not configured properly"]
          exited := false }
      | AdvisorsField.arr ids =>
        { logs := providerLogs ++ advisorStartupLogs advisorOk ids, exited := false }

/-- The pause-related state of the Bot: the `paused` flag and whether
the 24-hour auto-unpause timer subscription is armed. -/
structure PauseState where
  paused : Bool
  unpauseArmed : Bool
deriving DecidableEq, Repr

/-- `handleKeyPress('p')`: toggle `paused`; when pausing, arm a
`timer(1000 * 60 * 60 * 24)` that unpauses; when unpausing by key, the
armed timer is unsubscribed. -/
def pressPauseKey (st : PauseState) : PauseState :=
  if st.paused then { paused := false, unpauseArmed := false }
  else { paused := true, unpauseArmed := true }

/-- Firing of the auto-unpause timer. -/
def unpauseTimerFire (_st : PauseState) : PauseState :=
  { paused := false, unpauseArmed := false }

/-- A `DIGEST_ADVICE` notification pushed by `analyzeChart`. -/
structure AdviceNotification where
  advisorId : String
  chartId : String
  strategy : Strategy
  signals : List String
deriving DecidableEq, Repr

/-- `Bot.analyzeChart` (newer variant): when `paused` is set nothing at
all happens; otherwise every advisor covering the chart analyzes the
candles and each resulting advice is pushed as a `DIGEST_ADVICE`
notification.  `analysis` models `advisor.analyze` filtered for truthy
advices. -/
def analyzeChart (analysis : String → String → List (Strategy × List String))
    (advisors : List (String × Advisor)) (paused : Bool) (chartId : String) :
    List AdviceNotification :=
  if paused then []
  else
    (advisors.filter (fun p => p.2.chartIds.contains chartId)).flatMap
      (fun p => (analysis p.1 chartId).map (fun a =>
        { advisorId := p.1, chartId := chartId, strategy := a.1, signals := a.2 }))

/-! ### Helper lemmas -/

theorem sumQuantities_nil : sumQuantities [] = 0 := rfl

theorem foldl_add_quantity (l : List Trade) (a : Rat) :
    l.foldl (fun q t => q + t.quantity) a = a + sumQuantities l := by
  induction l generalizing a with
  | nil => simp [sumQuantities]
  | cons t ts ih =>
    simp only [sumQuantities, List.foldl_cons] at *
    rw [ih, ih (0 + t.quantity)]
    ring

theorem sumQuantities_cons (t : Trade) (ts : List Trade) :
    sumQuantities (t :: ts) = t.quantity + sumQuantities ts := by
  show List.foldl (fun q u => q + u.quantity) 0 (t :: ts) = t.quantity + sumQuantities ts
  simp only [List.foldl_cons]
  rw [foldl_add_quantity]
  ring

theorem sum_filter_disjoint_split (P Q R : Trade → Bool)
    (hPQ : ∀ t, ¬(P t = true ∧ Q t = true)) (hR : ∀ t, R t = (P t || Q t))
    (l : List Trade) :
    sumQuantities (l.filter R) = sumQuantities (l.filter P) + sumQuantities (l.filter Q) := by
  induction l with
  | nil => simp [sumQuantities]
  | cons t ts ih =>
    have hRt := hR t
    have hPQt := hPQ t
    simp only [List.filter_cons]
    cases hP : P t <;> cases hQ : Q t <;> simp_all [sumQuantities_cons] <;> ring

theorem openCountFor_closeById_le (trades : List Trade) (tid a c : String) :
    openCountFor (closeById trades tid) a c ≤ openCountFor trades a c := by
  induction trades with
  | nil => simp [closeById, openCountFor]
  | cons t ts ih =>
    simp only [closeById, openCountFor, List.map_cons, List.filter_cons] at *
    by_cases h : (t.id == tid) = true
    · simp only [h, if_true]
      have hclosed : ({ t with isOpen := false } : Trade).isOpen = false := rfl
      by_cases hp : (t.advisorId == a && t.chartId == c && t.isOpen) = true
      · simp only [hp, if_true, List.length_cons, hclosed, Bool.and_false]
        simp only [Bool.false_eq_true, if_false]
        omega
      · simp only [hp, hclosed, Bool.and_false, Bool.false_eq_true, if_false]
        exact ih
    · simp only [h, if_false, Bool.false_eq_true]
      by_cases hp : (t.advisorId == a && t.chartId == c && t.isOpen) = true
      · simp only [hp, if_true, List.length_cons]
        omega
      · simp only [hp, if_false, Bool.false_eq_true]
        exact ih

theorem openCountFor_append_single (trades : List Trade) (t : Trade) (a c : String) :
    openCountFor (trades ++ [t]) a c =
      openCountFor trades a c +
        (if (t.advisorId == a && t.chartId == c && t.isOpen) = true then 1 else 0) := by
  simp only [openCountFor, List.filter_append, List.length_append, List.filter_cons,
    List.filter_nil]
  by_cases hp : (t.advisorId == a && t.chartId == c && t.isOpen) = true
  · simp [hp]
  · simp [hp]

theorem openCountFor_eq_zero_of_find_none (trades : List Trade) (a c : String)
    (h : trades.find? (fun t => t.advisorId == a && t.chartId == c && t.isOpen) = none) :
    openCountFor trades a c = 0 := by
  rw [List.find?_eq_none] at h
  simp only [openCountFor, List.length_eq_zero]
  rw [List.filter_eq_nil_iff]
  intro t ht
  exact h t ht

/-- Closing a trade never grows the per-pair open count. -/
theorem atMostOneOpen_closeById (trades : List Trade) (tid : String)
    (h : atMostOneOpen trades) : atMostOneOpen (closeById trades tid) := by
  intro a c
  exact le_trans (openCountFor_closeById_le trades tid a c) (h a c)

/-- Appending a trade for a pair whose open count is currently zero
preserves the invariant. -/
theorem atMostOneOpen_append (trades : List Trade) (t : Trade)
    (h : atMostOneOpen trades)
    (hfind : trades.find?
      (fun u => u.advisorId == t.advisorId && u.chartId == t.chartId && u.isOpen) = none) :
    atMostOneOpen (trades ++ [t]) := by
  intro a c
  rw [openCountFor_append_single]
  by_cases hp : (t.advisorId == a && t.chartId == c && t.isOpen) = true
  · have ha : t.advisorId = a := by
      have := hp
      simp only [Bool.and_eq_true, beq_iff_eq] at this
      exact this.1.1
    have hc : t.chartId = c := by
      have := hp
      simp only [Bool.and_eq_true, beq_iff_eq] at this
      exact this.1.2
    have hzero : openCountFor trades a c = 0 := by
      apply openCountFor_eq_zero_of_find_none
      rw [← ha, ← hc]
      exact hfind
    rw [hzero]
    simp [hp]
  · simp only [hp, if_false, Bool.false_eq_true]
    have := h a c
    omega

/-- The trade list after digesting one signal is either unchanged, the
result of closing one trade, or the old list with one new trade appended
for the signalled pair, the append guarded by the absence of any open
trade for that pair. -/
theorem digestSignal_trades_shape (clamp : Rat → ChartInfo → Bool → Rat)
    (entryOk closeOk : Bool) (advisors : List (String × Advisor)) (charts : List Chart)
    (funds : Funds) (trades : List Trade) (advisorId chartId : String)
    (strategy : Strategy) (signal : String) :
    (digestSignal clamp entryOk closeOk advisors charts funds trades advisorId chartId
        strategy signal).trades = trades ∨
    (∃ tid, (digestSignal clamp entryOk closeOk advisors charts funds trades advisorId
        chartId strategy signal).trades = closeById trades tid) ∨
    (∃ t : Trade, (digestSignal clamp entryOk closeOk advisors charts funds trades advisorId
        chartId strategy signal).trades = trades ++ [t] ∧
      t.advisorId = advisorId ∧ t.chartId = chartId ∧
      trades.find? (fun u => u.advisorId == advisorId && u.chartId == chartId && u.isOpen)
        = none) := by
  unfold digestSignal
  cases hA : findAdvisor advisors advisorId with
  | none => left; rfl
  | some advisor =>
    cases hC : findChart charts chartId with
    | none => left; rfl
    | some chart =>
      dsimp only
      by_cases h1 : (signal == "CLOSE LONG" || signal == "CLOSE SHORT") = true
      · simp only [h1, if_true]
        cases hF : trades.find? (fun t =>
            t.advisorId == advisorId && t.chartId == chartId &&
              t.who == (advisor.name ++ "→" ++ chart.name ++ "→" ++ strategy.name) &&
              t.isOpen) with
        | none => left; rfl
        | some t =>
          by_cases h2 : ((signal == "CLOSE LONG" && t.isLong) ||
              (signal == "CLOSE SHORT" && !t.isLong)) = true
          · simp only [h2, if_true]
            cases closeOk with
            | true => right; left; exact ⟨t.id, rfl⟩
            | false => left; rfl
          · simp only [h2, if_false, Bool.false_eq_true]
            left; rfl
      · simp only [h1, if_false, Bool.false_eq_true]
        by_cases h3 : (signal == "LONG" || signal == "SHORT") = true
        · simp only [h3, if_true]
          set asset := if (signal == "LONG") = true then chart.info.quoteAsset
            else chart.info.baseAsset with hAsset
          by_cases h4 : (0 < clamp ((fundsAvailable funds asset -
                quantityLockedByTrades charts trades asset) * strategy.risk / 100)
                chart.info (signal == "LONG") &&
              (trades.find? (fun t =>
                t.advisorId == advisorId && t.chartId == chartId && t.isOpen)).isNone)
              = true
          · rw [if_pos h4]
            cases entryOk with
            | true =>
              right; right
              refine ⟨_, rfl, rfl, rfl, ?_⟩
              have := (Bool.and_eq_true _ _).mp h4
              exact Option.isNone_iff_eq_none.mp this.2
            | false => left; rfl
          · rw [if_neg h4]
            left; rfl
        · simp only [h3, if_false, Bool.false_eq_true]
          left; rfl

theorem digestStep_preserves (advisors : List (String × Advisor)) (e : SigEvent)
    (trades : List Trade) (h : atMostOneOpen trades) :
    atMostOneOpen (digestStep advisors trades e) := by
  unfold digestStep
  rcases digestSignal_trades_shape e.clamp e.entryOk e.closeOk advisors e.charts e.funds
      trades e.advisorId e.chartId e.strategy e.signal with
    heq | ⟨tid, heq⟩ | ⟨t, heq, ha, hc, hfind⟩
  · rw [heq]; exact h
  · rw [heq]; exact atMostOneOpen_closeById trades tid h
  · rw [heq]
    exact atMostOneOpen_append trades t h (by rw [ha, hc]; exact hfind)

theorem digestMany_preserves (advisors : List (String × Advisor)) (events : List SigEvent) :
    ∀ trades : List Trade, atMostOneOpen trades →
      atMostOneOpen (digestMany advisors trades events) := by
  induction events with
  | nil => intro trades h; simpa [digestMany] using h
  | cons e es ih =>
    intro trades h
    simp only [digestMany, List.foldl_cons]
    exact ih _ (digestStep_preserves advisors e trades h)

/-- C1: for every sequence of digested signals, at most one open
position exists per `(advisorId, chartId)` pair at any time, and a
digestion step that registers a new trade does so only when no trade for
that pair was open, the check sitting immediately before creation. -/
theorem claim1_at_most_one_open_per_pair (advisors : List (String × Advisor))
    (trades : List Trade) (events : List SigEvent) (h : atMostOneOpen trades) :
    atMostOneOpen (digestMany advisors trades events) ∧
    (∀ (clamp : Rat → ChartInfo → Bool → Rat) (entryOk closeOk : Bool)
        (charts : List Chart) (funds : Funds) (tr : List Trade) (aId cId : String)
        (strategy : Strategy) (signal : String),
      tr.length < (digestSignal clamp entryOk closeOk advisors charts funds tr aId cId
          strategy signal).trades.length →
      ∃ t : Trade,
        (digestSignal clamp entryOk closeOk advisors charts funds tr aId cId strategy
            signal).trades = tr ++ [t] ∧
        t.advisorId = aId ∧ t.chartId = cId ∧
        tr.find? (fun u => u.advisorId == aId && u.chartId == cId && u.isOpen) = none) := by
  refine ⟨digestMany_preserves advisors events trades h, ?_⟩
  intro clamp entryOk closeOk charts funds tr aId cId strategy signal hlen
  rcases digestSignal_trades_shape clamp entryOk closeOk advisors charts funds tr aId cId
      strategy signal with heq | ⟨tid, heq⟩ | ⟨t, heq, ha, hc, hfind⟩
  · rw [heq] at hlen; exact absurd hlen (lt_irrefl _)
  · rw [heq] at hlen
    simp only [closeById, List.length_map] at hlen
    exact absurd hlen (lt_irrefl _)
  · exact ⟨t, heq, ha, hc, hfind⟩

def sampleChart : Chart :=
  { id := "c1", name := "BTCUSDT 1h", info := { baseAsset := "BTC", quoteAsset := "USDT" } }

def sampleAdvisors : List (String × Advisor) :=
  [("alice", { name := "Alice", chartIds := ["c1"], margin := 10 })]

def sampleLongEvent : SigEvent :=
  { clamp := fun amount _ _ => amount
    entryOk := true
    closeOk := true
    charts := [sampleChart]
    funds := [("USDT", 1000)]
    advisorId := "alice"
    chartId := "c1"
    strategy := { name := "vsa", risk := 10 }
    signal := "LONG" }

theorem claim1_at_most_one_open_per_pair_witness :
    atMostOneOpen (digestMany sampleAdvisors [] [sampleLongEvent, sampleLongEvent]) :=
  (claim1_at_most_one_open_per_pair sampleAdvisors [] [sampleLongEvent, sampleLongEvent]
    (fun a c => by simp [openCountFor])).1

/-- The settlement asset of an open signal: quote asset for LONG, base
asset for SHORT. -/
def signalAsset (chart : Chart) (signal : String) : String :=
  if signal == "LONG" then chart.info.quoteAsset else chart.info.baseAsset

/-- Whatever the clamp and the Trade class do, digesting a LONG/SHORT
signal sizes the pre-clamp amount as (available balance of the
settlement asset minus the quantity locked by open trades) times the
strategy risk over 100. -/
theorem digestSignal_sizedAmount (clamp : Rat → ChartInfo → Bool → Rat)
    (entryOk closeOk : Bool) (advisors : List (String × Advisor)) (charts : List Chart)
    (funds : Funds) (trades : List Trade) (advisorId chartId : String)
    (strategy : Strategy) (signal : String) (advisor : Advisor) (chart : Chart)
    (hA : findAdvisor advisors advisorId = some advisor)
    (hC : findChart charts chartId = some chart)
    (hS : signal = "LONG" ∨ signal = "SHORT") :
    (digestSignal clamp entryOk closeOk advisors charts funds trades advisorId chartId
        strategy signal).sizedAmount =
      some ((fundsAvailable funds (signalAsset chart signal) -
        quantityLockedByTrades charts trades (signalAsset chart signal)) *
          strategy.risk / 100) := by
  unfold digestSignal signalAsset
  rw [hA, hC]
  rcases hS with h | h <;> subst h <;> dsimp only <;>
    rw [if_neg (by decide), if_pos (by decide)] <;>
    (repeat' split) <;> simp_all

/-- The quantity the source locks equals, for every state and asset,
the sum over a single pass of the open positions that would sell the
asset back (longs by their chart's base asset, shorts by their chart's
quote asset). -/
theorem quantityLocked_eq_committedAmended (charts : List Chart) (trades : List Trade)
    (asset : String) :
    quantityLockedByTrades charts trades asset = committedAmended charts trades asset := by
  unfold quantityLockedByTrades committedAmended
  refine (sum_filter_disjoint_split
    (fun t => t.isLong && t.isOpen &&
      ((findChart charts t.chartId).map (fun c => c.info.baseAsset) == some asset))
    (fun t => !t.isLong && t.isOpen &&
      ((findChart charts t.chartId).map (fun c => c.info.quoteAsset) == some asset))
    (fun t => t.isOpen && sellsBackAsset charts t asset) ?_ ?_ trades).symm
  · intro t ⟨h1, h2⟩
    rcases Bool.and_eq_true _ _ |>.mp h1 with ⟨h1a, _⟩
    rcases Bool.and_eq_true _ _ |>.mp h2 with ⟨h2a, _⟩
    rcases Bool.and_eq_true _ _ |>.mp h1a with ⟨hl, _⟩
    rcases Bool.and_eq_true _ _ |>.mp h2a with ⟨hnl, _⟩
    rw [hl] at hnl
    exact absurd hnl (by decide)
  · intro t
    unfold sellsBackAsset
    cases hl : t.isLong <;> cases ho : t.isOpen <;> simp [hl, ho]

/-- C2 counterexample: a state with one open long on a BTC/USDT chart.
The source locks its quantity against the chart's base asset (BTC); the
committed quantity as the claim words it (longs counted by their quote
asset) locks nothing against BTC, so the two disagree. -/
theorem claim2_committed_cex :
    ¬ (quantityLockedByTrades [sampleChart]
        [{ id := "T1", advisorId := "alice", chartId := "c1", who := "w", isLong := true,
           quantity := 5, isOpen := true }] "BTC" =
      committedSpecWorded [sampleChart]
        [{ id := "T1", advisorId := "alice", chartId := "c1", who := "w", isLong := true,
           quantity := 5, isOpen := true }] "BTC") := by
  simp [quantityLockedByTrades, committedSpecWorded, sumQuantities, findChart,
    sampleChart]

/-- C2 amended: when sizing a LONG or SHORT for settlement asset A, the
quantity treated as committed equals the sum of the quantities of all
currently open positions that would sell A back — longs selling their
chart's BASE asset, shorts selling their chart's QUOTE asset —
recomputed from the open-position list on each sizing call, and the
sized amount uses the ledger's available balance for A minus that
committed quantity. -/
theorem claim2_committed_quantity (charts : List Chart) (trades : List Trade)
    (asset : String) :
    quantityLockedByTrades charts trades asset = committedAmended charts trades asset ∧
    (∀ (clamp : Rat → ChartInfo → Bool → Rat) (entryOk closeOk : Bool)
        (advisors : List (String × Advisor)) (funds : Funds) (advisorId chartId : String)
        (strategy : Strategy) (signal : String) (advisor : Advisor) (chart : Chart),
      findAdvisor advisors advisorId = some advisor →
      findChart charts chartId = some chart →
      (signal = "LONG" ∨ signal = "SHORT") →
      (digestSignal clamp entryOk closeOk advisors charts funds trades advisorId chartId
          strategy signal).sizedAmount =
        some ((fundsAvailable funds (signalAsset chart signal) -
          committedAmended charts trades (signalAsset chart signal)) *
            strategy.risk / 100)) := by
  refine ⟨quantityLocked_eq_committedAmended charts trades asset, ?_⟩
  intro clamp entryOk closeOk advisors funds advisorId chartId strategy signal advisor
    chart hA hC hS
  rw [← quantityLocked_eq_committedAmended]
  exact digestSignal_sizedAmount clamp entryOk closeOk advisors charts funds trades
    advisorId chartId strategy signal advisor chart hA hC hS

theorem claim2_committed_quantity_witness :
    (digestSignal (fun amount _ _ => amount) true true sampleAdvisors [sampleChart]
        [("USDT", 1000)] [] "alice" "c1" { name := "vsa", risk := 10 }
        "LONG").sizedAmount =
      some ((fundsAvailable [("USDT", 1000)] (signalAsset sampleChart "LONG") -
        committedAmended [sampleChart] [] (signalAsset sampleChart "LONG")) *
          (10 : Rat) / 100) :=
  (claim2_committed_quantity [sampleChart] [] "USDT").2
    (fun amount _ _ => amount) true true sampleAdvisors [("USDT", 1000)] "alice" "c1"
    { name := "vsa", risk := 10 } "LONG" { name := "Alice", chartIds := ["c1"], margin := 10 }
    sampleChart rfl rfl (Or.inl rfl)

/-- C3: in the orchestrator variant whose digestion receives the
candle-final flag, a LONG or SHORT signal computed on an in-progress
candle is discarded: the trade list is unchanged, no closure is
requested, no order is submitted and no sizing is performed. -/
theorem claim3_nonfinal_long_short_discarded (clamp : Rat → ChartInfo → Bool → Rat)
    (entryOk closeOk : Bool) (advisors : List (String × Advisor)) (charts : List Chart)
    (funds : Funds) (trades : List Trade) (advisorId chartId : String)
    (strategy : Strategy) (signal : String)
    (hS : signal = "LONG" ∨ signal = "SHORT") :
    (digestAdviceOld clamp entryOk closeOk advisors charts funds trades advisorId chartId
        strategy false signal).trades = trades ∧
    (digestAdviceOld clamp entryOk closeOk advisors charts funds trades advisorId chartId
        strategy false signal).closeRequests = [] ∧
    (digestAdviceOld clamp entryOk closeOk advisors charts funds trades advisorId chartId
        strategy false signal).submissions = [] ∧
    (digestAdviceOld clamp entryOk closeOk advisors charts funds trades advisorId chartId
        strategy false signal).sizedAmount = none := by
  unfold digestAdviceOld
  cases hA : findAdvisor advisors advisorId with
  | none => exact ⟨rfl, rfl, rfl, rfl⟩
  | some advisor =>
    cases hC : findChart charts chartId with
    | none => exact ⟨rfl, rfl, rfl, rfl⟩
    | some chart =>
      rcases hS with h | h <;> subst h <;> dsimp only <;>
        rw [if_neg (by decide), if_pos (by decide), if_neg (by decide)] <;>
        exact ⟨rfl, rfl, rfl, rfl⟩

theorem claim3_nonfinal_long_short_discarded_witness :
    (digestAdviceOld (fun amount _ _ => amount) true true sampleAdvisors [sampleChart]
        [("USDT", 1000)] [] "alice" "c1" { name := "vsa", risk := 10 } false
        "LONG").trades = [] :=
  (claim3_nonfinal_long_short_discarded (fun amount _ _ => amount) true true
    sampleAdvisors [sampleChart] [("USDT", 1000)] [] "alice" "c1"
    { name := "vsa", risk := 10 } "LONG" (Or.inl rfl)).1

/-- C5: on CLOSE LONG / CLOSE SHORT, closure (with reason `signal`) of
the unique open position matching `(advisorId, chartId, who)` is
requested exactly when that position's direction matches the signal's
polarity; with no matching open position, or with the direction
mismatched, the digestion is a no-op and no error is raised. -/
theorem claim5_close_signal_polarity (clamp : Rat → ChartInfo → Bool → Rat)
    (entryOk closeOk : Bool) (advisors : List (String × Advisor)) (charts : List Chart)
    (funds : Funds) (trades : List Trade) (advisorId chartId : String)
    (strategy : Strategy) (signal : String) (advisor : Advisor) (chart : Chart)
    (hA : findAdvisor advisors advisorId = some advisor)
    (hC : findChart charts chartId = some chart)
    (hS : signal = "CLOSE LONG" ∨ signal = "CLOSE SHORT") :
    (trades.find? (fun t => t.advisorId == advisorId && t.chartId == chartId &&
        t.who == (advisor.name ++ "→" ++ chart.name ++ "→" ++ strategy.name) && t.isOpen)
        = none →
      digestSignal clamp entryOk closeOk advisors charts funds trades advisorId chartId
        strategy signal = DigestOutcome.noop trades none) ∧
    (∀ t : Trade,
      trades.find? (fun t => t.advisorId == advisorId && t.chartId == chartId &&
        t.who == (advisor.name ++ "→" ++ chart.name ++ "→" ++ strategy.name) && t.isOpen)
        = some t →
      ((signal = "CLOSE LONG" ∧ t.isLong = true) ∨
          (signal = "CLOSE SHORT" ∧ t.isLong = false) →
        (digestSignal clamp entryOk closeOk advisors charts funds trades advisorId chartId
          strategy signal).closeRequests = [(t.id, CloseReason.signal)]) ∧
      ((signal = "CLOSE LONG" ∧ t.isLong = false) ∨
          (signal = "CLOSE SHORT" ∧ t.isLong = true) →
        digestSignal clamp entryOk closeOk advisors charts funds trades advisorId chartId
          strategy signal = DigestOutcome.noop trades none)) := by
  unfold digestSignal
  rw [hA, hC]
  rcases hS with h | h <;> subst h <;> dsimp only <;> rw [if_pos (by decide)] <;>
    refine ⟨fun hF => by rw [hF], fun t hF => ⟨fun hdir => ?_, fun hdir => ?_⟩⟩ <;>
    (rw [hF]; dsimp only)
  · rcases hdir with ⟨_, ht⟩ | ⟨hcontra, _⟩
    · rw [if_pos (by simp [ht]), ]
      cases closeOk <;> rfl
    · exact absurd hcontra (by decide)
  · rcases hdir with ⟨_, ht⟩ | ⟨hcontra, _⟩
    · rw [if_neg (by simp [ht])]
    · exact absurd hcontra (by decide)
  · rcases hdir with ⟨hcontra, _⟩ | ⟨_, ht⟩
    · exact absurd hcontra (by decide)
    · rw [if_pos (by simp [ht])]
      cases closeOk <;> rfl
  · rcases hdir with ⟨hcontra, _⟩ | ⟨_, ht⟩
    · exact absurd hcontra (by decide)
    · rw [if_neg (by simp [ht])]

def sampleOpenLong : Trade :=
  { id := "T1", advisorId := "alice", chartId := "c1",
    who := "Alice→BTCUSDT 1h→vsa", isLong := true, quantity := 100, isOpen := true }

theorem claim5_close_signal_polarity_witness :
    digestSignal (fun amount _ _ => amount) true true sampleAdvisors [sampleChart]
      [("USDT", 1000)] [sampleOpenLong] "alice" "c1" { name := "vsa", risk := 10 }
      "CLOSE SHORT" = DigestOutcome.noop [sampleOpenLong] none :=
  (((claim5_close_signal_polarity (fun amount _ _ => amount) true true sampleAdvisors
      [sampleChart] [("USDT", 1000)] [sampleOpenLong] "alice" "c1"
      { name := "vsa", risk := 10 } "CLOSE SHORT"
      { name := "Alice", chartIds := ["c1"], margin := 10 } sampleChart rfl rfl
      (Or.inr rfl)).2 sampleOpenLong (by simp [sampleOpenLong, sampleChart])).2)
    (Or.inr ⟨rfl, rfl⟩)

/-- Processing of a sequence of scheduled digestion tasks at the
notification level: `processNotification` awaits the digestion and
catches any rejection, logging it, so the loop always continues with the
next task; the final trade list and the error log lines are returned. -/
def runDigestLog (advisors : List (String × Advisor)) (trades : List Trade) :
    List SigEvent → List Trade × List String
  | [] => (trades, [])
  | e :: es =>
    let out := digestSignal e.clamp e.entryOk e.closeOk advisors e.charts e.funds trades
      e.advisorId e.chartId e.strategy e.signal
    let rest := runDigestLog advisors out.trades es
    (rest.1, (match out.error with | some m => [m] | none => []) ++ rest.2)

/-- C7: digesting a signal that is none of LONG, SHORT, CLOSE LONG,
CLOSE SHORT rejects with an error naming the offending strategy, changes
nothing, and the engine goes on: the remaining tasks are processed
exactly as they would have been, with the error merely logged. -/
theorem claim7_unknown_signal_rejected (clamp : Rat → ChartInfo → Bool → Rat)
    (entryOk closeOk : Bool) (advisors : List (String × Advisor)) (charts : List Chart)
    (funds : Funds) (trades : List Trade) (advisorId chartId : String)
    (strategy : Strategy) (signal : String) (advisor : Advisor) (chart : Chart)
    (hA : findAdvisor advisors advisorId = some advisor)
    (hC : findChart charts chartId = some chart)
    (h1 : signal ≠ "LONG") (h2 : signal ≠ "SHORT")
    (h3 : signal ≠ "CLOSE LONG") (h4 : signal ≠ "CLOSE SHORT") :
    digestSignal clamp entryOk closeOk advisors charts funds trades advisorId chartId
        strategy signal =
      DigestOutcome.noop trades
        (some ("Unable to process signal " ++ signal ++ " from " ++ strategy.name)) ∧
    (∀ es : List SigEvent,
      runDigestLog advisors trades
          ({ clamp := clamp, entryOk := entryOk, closeOk := closeOk, charts := charts,
             funds := funds, advisorId := advisorId, chartId := chartId,
             strategy := strategy, signal := signal } :: es) =
        ((runDigestLog advisors trades es).1,
          ("Unable to process signal " ++ signal ++ " from " ++ strategy.name) ::
            (runDigestLog advisors trades es).2)) := by
  have hb1 : (signal == "CLOSE LONG") = false := beq_eq_false_iff_ne.mpr h3
  have hb2 : (signal == "CLOSE SHORT") = false := beq_eq_false_iff_ne.mpr h4
  have hb3 : (signal == "LONG") = false := beq_eq_false_iff_ne.mpr h1
  have hb4 : (signal == "SHORT") = false := beq_eq_false_iff_ne.mpr h2
  have hmain : digestSignal clamp entryOk closeOk advisors charts funds trades advisorId
      chartId strategy signal =
      DigestOutcome.noop trades
        (some ("Unable to process signal " ++ signal ++ " from " ++ strategy.name)) := by
    unfold digestSignal
    rw [hA, hC]
    dsimp only
    rw [if_neg (by simp [hb1, hb2]), if_neg (by simp [hb3, hb4])]
  refine ⟨hmain, ?_⟩
  intro es
  simp only [runDigestLog]
  simp only [hmain]
  rfl

theorem claim7_unknown_signal_rejected_witness :
    digestSignal (fun amount _ _ => amount) true true sampleAdvisors [sampleChart]
      [("USDT", 1000)] [] "alice" "c1" { name := "vsa", risk := 10 } "HODL" =
      DigestOutcome.noop []
        (some ("Unable to process signal " ++ "HODL" ++ " from " ++ "vsa")) :=
  (claim7_unknown_signal_rejected (fun amount _ _ => amount) true true sampleAdvisors
    [sampleChart] [("USDT", 1000)] [] "alice" "c1" { name := "vsa", risk := 10 } "HODL"
    { name := "Alice", chartIds := ["c1"], margin := 10 } sampleChart rfl rfl
    (by decide) (by decide) (by decide) (by decide)).1

/-- C4 counterexample: after the scenario LONG (risk 10, available
USDT 1000, identity clamp) opens its 100-quantity position, a sizing
call for the SAME settlement asset (USDT, the quote asset) recomputes
the committed quantity as 0, not 100: the open long is counted against
its chart's base asset only. -/
theorem claim4_committed_same_asset_cex :
    quantityLockedByTrades [sampleChart]
        (digestSignal (fun amount _ _ => amount) true true sampleAdvisors [sampleChart]
          [("USDT", 1000)] [] "alice" "c1" { name := "vsa", risk := 10 } "LONG").trades
        "USDT" = 0 ∧
    ¬ ((0 : Rat) = 100) := by
  constructor
  · simp [digestSignal, findAdvisor, findChart, sampleAdvisors, sampleChart,
      quantityLockedByTrades, sumQuantities, fundsAvailable]
  · norm_num

/-- C4 (amended): the pre-clamp position size is available capital
times the applicable risk over 100; in the scenario (advisor risk 10,
available quote asset 1000, no other open position, clamp returning its
input) the created position has quantity 100, and a subsequent sizing
call sees those 100 as committed for the chart's base asset — the asset
the open long would sell back — while the quote asset shows 0. -/
theorem claim4_risk_sizing_scenario :
    (∀ (clamp : Rat → ChartInfo → Bool → Rat) (entryOk closeOk : Bool)
        (advisors : List (String × Advisor)) (charts : List Chart) (funds : Funds)
        (trades : List Trade) (advisorId chartId : String) (strategy : Strategy)
        (signal : String) (advisor : Advisor) (chart : Chart),
      findAdvisor advisors advisorId = some advisor →
      findChart charts chartId = some chart →
      (signal = "LONG" ∨ signal = "SHORT") →
      (digestSignal clamp entryOk closeOk advisors charts funds trades advisorId chartId
          strategy signal).sizedAmount =
        some ((fundsAvailable funds (signalAsset chart signal) -
          quantityLockedByTrades charts trades (signalAsset chart signal)) *
            strategy.risk / 100)) ∧
    (digestSignal (fun amount _ _ => amount) true true sampleAdvisors [sampleChart]
        [("USDT", 1000)] [] "alice" "c1" { name := "vsa", risk := 10 } "LONG").trades =
      [sampleOpenLong] ∧
    quantityLockedByTrades [sampleChart] [sampleOpenLong] "BTC" = 100 := by
  refine ⟨digestSignal_sizedAmount, ?_, ?_⟩
  · simp [digestSignal, findAdvisor, findChart, sampleAdvisors, sampleChart,
      quantityLockedByTrades, sumQuantities, fundsAvailable, sampleOpenLong]
    exact ⟨by decide, by norm_num⟩
  · simp [quantityLockedByTrades, sumQuantities, findChart, sampleChart, sampleOpenLong]

theorem claim4_risk_sizing_scenario_witness :
    (digestSignal (fun amount _ _ => amount) true true sampleAdvisors [sampleChart]
        [("USDT", 1000)] [] "alice" "c1" { name := "vsa", risk := 10 }
        "LONG").sizedAmount =
      some ((fundsAvailable [("USDT", 1000)] (signalAsset sampleChart "LONG") -
        quantityLockedByTrades [sampleChart] [] (signalAsset sampleChart "LONG")) *
          (10 : Rat) / 100) :=
  claim4_risk_sizing_scenario.1 (fun amount _ _ => amount) true true sampleAdvisors
    [sampleChart] [("USDT", 1000)] [] "alice" "c1" { name := "vsa", risk := 10 } "LONG"
    { name := "Alice", chartIds := ["c1"], margin := 10 } sampleChart rfl rfl (Or.inl rfl)

/-- Digesting one signal makes at most one order submission, and any
submission it makes happens inside the scheduled (limiter) task. -/
theorem digestSignal_submissions_shape (clamp : Rat → ChartInfo → Bool → Rat)
    (entryOk closeOk : Bool) (advisors : List (String × Advisor)) (charts : List Chart)
    (funds : Funds) (trades : List Trade) (advisorId chartId : String)
    (strategy : Strategy) (signal : String) :
    (digestSignal clamp entryOk closeOk advisors charts funds trades advisorId chartId
        strategy signal).submissions = [] ∨
    ∃ s : Submission,
      (digestSignal clamp entryOk closeOk advisors charts funds trades advisorId chartId
        strategy signal).submissions = [s] ∧ s.viaLimiter = true := by
  unfold digestSignal
  cases hA : findAdvisor advisors advisorId with
  | none => left; rfl
  | some advisor =>
    cases hC : findChart charts chartId with
    | none => left; rfl
    | some chart =>
      dsimp only
      repeat' split
      all_goals first
        | (left; rfl)
        | (right; exact ⟨_, rfl, rfl⟩)

theorem digestTraceFrom_mem (advisors : List (String × Advisor)) (events : List SigEvent) :
    ∀ (n : Nat) (trades : List Trade),
      ∀ p ∈ digestTraceFrom advisors n trades events, n ≤ p.1 ∧ p.2.viaLimiter = true := by
  induction events with
  | nil => intro n trades p hp; simp [digestTraceFrom] at hp
  | cons e es ih =>
    intro n trades p hp
    simp only [digestTraceFrom, List.mem_append, List.mem_map] at hp
    rcases hp with ⟨s, hs, rfl⟩ | hp
    · refine ⟨le_refl n, ?_⟩
      rcases digestSignal_submissions_shape e.clamp e.entryOk e.closeOk advisors e.charts
          e.funds trades e.advisorId e.chartId e.strategy e.signal with hnil | ⟨s0, hone, hvia⟩
      · rw [hnil] at hs; simp at hs
      · rw [hone] at hs
        simp only [List.mem_singleton] at hs
        subst hs
        exact hvia
    · have h := ih (n + 1) _ p hp
      exact ⟨by omega, h.2⟩

theorem digestTraceFrom_pairwise (advisors : List (String × Advisor))
    (events : List SigEvent) :
    ∀ (n : Nat) (trades : List Trade),
      (digestTraceFrom advisors n trades events).Pairwise (fun p q => p.1 < q.1) := by
  induction events with
  | nil => intro n trades; simp [digestTraceFrom]
  | cons e es ih =>
    intro n trades
    simp only [digestTraceFrom]
    rw [List.pairwise_append]
    refine ⟨?_, ih (n + 1) _, ?_⟩
    · rcases digestSignal_submissions_shape e.clamp e.entryOk e.closeOk advisors e.charts
          e.funds trades e.advisorId e.chartId e.strategy e.signal with hnil | ⟨s0, hone, _⟩
      · rw [hnil]; simp
      · rw [hone]; simp
    · intro p hp q hq
      rcases List.mem_map.mp hp with ⟨s, _, rfl⟩
      have h := digestTraceFrom_mem advisors es (n + 1) _ q hq
      exact lt_of_lt_of_le (Nat.lt_succ_self n) h.1

/-- C6 counterexample: the exit sell made by `closeTrades` (shutdown
forced liquidation) for an open position is issued straight against the
provider, not through a limiter task: its submission has
`viaLimiter = false`, so not every buy/sell submission passes through
the rate-limited queue. -/
theorem claim6_close_submission_cex :
    (closeTradesSubmissions [sampleOpenLong]).all (fun s => s.viaLimiter) = false := by
  simp [closeTradesSubmissions, sampleOpenLong]

/-- C6 (amended): every order submission made while digesting signals
happens inside a limiter task (at most one per scheduled task), and
those tasks issue their submissions in strict schedule order; the exit
sells of positions closed outside digestion (shutdown `expire` via
`closeTrades`) go straight to the provider, bypassing the limiter. -/
theorem claim6_limiter_order (advisors : List (String × Advisor)) (trades : List Trade)
    (events : List SigEvent) :
    (∀ p ∈ digestTrace advisors trades events, p.2.viaLimiter = true) ∧
    (digestTrace advisors trades events).Pairwise (fun p q => p.1 < q.1) ∧
    (∀ t ∈ trades, t.isOpen = true →
      ({ isBuy := false, quantity := t.quantity, viaLimiter := false } : Submission) ∈
        closeTradesSubmissions trades) := by
  refine ⟨?_, digestTraceFrom_pairwise advisors events 0 trades, ?_⟩
  · intro p hp
    exact (digestTraceFrom_mem advisors events 0 trades p hp).2
  · intro t ht hopen
    unfold closeTradesSubmissions
    exact List.mem_map_of_mem _ (List.mem_filter.mpr ⟨ht, by simp [hopen]⟩)

theorem claim6_limiter_order_witness :
    (digestTrace sampleAdvisors [] [sampleLongEvent, sampleLongEvent]).all
      (fun p => p.2.viaLimiter) = true :=
  List.all_eq_true.mpr (fun p hp =>
    (claim6_limiter_order sampleAdvisors [] [sampleLongEvent, sampleLongEvent]).1 p hp)

/-- C8: on shutdown every open position gets a close-with-reason-expire
operation, and `process.exit()` appears in the shutdown trace only after
every one of those closures has resolved — successfully, since a
rejected closure makes the `await` throw before the exit call. -/
theorem claim8_shutdown_defers_exit (closeOk : String → Bool) (trades : List Trade) :
    (∀ t ∈ trades, t.isOpen = true →
      ShutdownEv.closeResolve t.id (closeOk t.id) ∈ quitTrace closeOk trades) ∧
    (ShutdownEv.exitProcess ∈ quitTrace closeOk trades →
      (∀ t ∈ trades, t.isOpen = true → closeOk t.id = true) ∧
      ∃ pre, quitTrace closeOk trades = pre ++ [ShutdownEv.exitProcess] ∧
        ShutdownEv.exitProcess ∉ pre ∧
        ∀ t ∈ trades, t.isOpen = true → ShutdownEv.closeResolve t.id true ∈ pre) := by
  unfold quitTrace
  have hmemcl : ∀ t ∈ trades, t.isOpen = true →
      ShutdownEv.closeResolve t.id (closeOk t.id) ∈
        (trades.filter (fun t => t.isOpen)).map
          (fun t => ShutdownEv.closeResolve t.id (closeOk t.id)) := by
    intro t ht hopen
    exact List.mem_map_of_mem _ (List.mem_filter.mpr ⟨ht, by simp [hopen]⟩)
  have hnoexit : ShutdownEv.exitProcess ∉
      (trades.filter (fun t => t.isOpen)).map
        (fun t => ShutdownEv.closeResolve t.id (closeOk t.id)) := by
    intro hmem
    rcases List.mem_map.mp hmem with ⟨t, _, habs⟩
    exact absurd habs (by simp)
  by_cases hall : (trades.filter (fun t => t.isOpen)).all (fun t => closeOk t.id) = true
  · rw [if_pos hall]
    constructor
    · intro t ht hopen
      exact List.mem_append_left _ (hmemcl t ht hopen)
    · intro _
      have hok : ∀ t ∈ trades, t.isOpen = true → closeOk t.id = true := by
        intro t ht hopen
        exact List.all_eq_true.mp hall t (List.mem_filter.mpr ⟨ht, by simp [hopen]⟩)
      refine ⟨hok, _, rfl, hnoexit, ?_⟩
      intro t ht hopen
      have := hmemcl t ht hopen
      rwa [hok t ht hopen] at this
  · rw [if_neg hall]
    refine ⟨hmemcl, fun hmem => absurd hmem hnoexit⟩

theorem claim8_shutdown_defers_exit_witness :
    ShutdownEv.closeResolve sampleOpenLong.id ((fun _ => true) sampleOpenLong.id) ∈
      quitTrace (fun _ => true) [sampleOpenLong] :=
  (claim8_shutdown_defers_exit (fun _ => true) [sampleOpenLong]).1 sampleOpenLong
    (by simp) rfl

/-- C9 counterexample: a configuration whose advisor field is not an
array is logged as an error during startup but is NOT fatal — the
engine keeps running with no advisors, contradicting the claim that a
malformed advisor list makes the process exit. -/
theorem claim9_nonfatal_advisors_cex :
    (initializeBot (fun _ => true) (fun _ => true)
        (BotConfig.obj (some "binance") AdvisorsField.notArray)).exited = false ∧
    StartupLog.errorLog "Advisors not configured properly" ∈
      (initializeBot (fun _ => true) (fun _ => true)
        (BotConfig.obj (some "binance") AdvisorsField.notArray)).logs := by
  constructor
  · rfl
  · decide

/-- C9 (amended): a non-object configuration or a missing, empty or
unconnectable provider is fatal at startup (error logged, process
exits); a malformed advisor list is logged with a descriptive error but
is not fatal — the engine continues without it — and no risk value is
validated at startup by this orchestrator variant. -/
theorem claim9_startup_validation (providerOk advisorOk : String → Bool) :
    (initializeBot providerOk advisorOk BotConfig.notObject).exited = true ∧
    (∀ advs : AdvisorsField,
      (initializeBot providerOk advisorOk (BotConfig.obj none advs)).exited = true) ∧
    (∀ (p : String) (advs : AdvisorsField), p.length ≠ 0 → providerOk p = false →
      (initializeBot providerOk advisorOk (BotConfig.obj (some p) advs)).exited = true) ∧
    (∀ (p : String) (advs : AdvisorsField), p.length ≠ 0 → providerOk p = true →
      (initializeBot providerOk advisorOk (BotConfig.obj (some p) advs)).exited = false) ∧
    (∀ p : String, p.length ≠ 0 → providerOk p = true →
      StartupLog.errorLog "Advisors not configured properly" ∈
        (initializeBot providerOk advisorOk
          (BotConfig.obj (some p) AdvisorsField.notArray)).logs) := by
  have hlen : ∀ p : String, p.length ≠ 0 → (p.length == 0) = false := by
    intro p hp
    exact beq_eq_false_iff_ne.mpr hp
  refine ⟨rfl, fun advs => rfl, ?_, ?_, ?_⟩
  · intro p advs hp hprov
    unfold initializeBot
    simp only [Option.getD_some]
    rw [if_neg (by simp [hlen p hp]), if_pos (by simp [hprov])]
  · intro p advs hp hprov
    unfold initializeBot
    simp only [Option.getD_some]
    rw [if_neg (by simp [hlen p hp]), if_neg (by simp [hprov])]
    cases advs <;> rfl
  · intro p hp hprov
    unfold initializeBot
    simp only [Option.getD_some]
    rw [if_neg (by simp [hlen p hp]), if_neg (by simp [hprov])]
    simp

theorem claim9_startup_validation_witness :
    (initializeBot (fun _ => false) (fun _ => true)
        (BotConfig.obj (some "binance") (AdvisorsField.arr []))).exited = true :=
  (claim9_startup_validation (fun _ => false) (fun _ => true)).2.2.1 "binance"
    (AdvisorsField.arr []) (by decide) rfl

/-- C10: with the paused flag set, `analyzeChart` performs no analysis
and pushes no `DIGEST_ADVICE` notification, so no position can be opened
from incoming candles; pressing the pause key arms the auto-unpause
timer whose firing clears the flag, and unpausing by key disarms it. -/
theorem claim10_pause_blocks_analysis
    (analysis : String → String → List (Strategy × List String))
    (advisors : List (String × Advisor)) (chartId : String) :
    analyzeChart analysis advisors true chartId = [] ∧
    (∀ st : PauseState, st.paused = false →
      pressPauseKey st = { paused := true, unpauseArmed := true }) ∧
    (∀ st : PauseState, st.paused = true →
      pressPauseKey st = { paused := false, unpauseArmed := false }) ∧
    (∀ st : PauseState, unpauseTimerFire st = { paused := false, unpauseArmed := false }) := by
  refine ⟨rfl, ?_, ?_, fun st => rfl⟩
  · intro st hp
    unfold pressPauseKey
    rw [if_neg (by simp [hp])]
  · intro st hp
    unfold pressPauseKey
    rw [if_pos (by simp [hp])]

theorem claim10_pause_blocks_analysis_witness :
    analyzeChart (fun _ _ => [({ name := "vsa", risk := 10 }, ["LONG"])]) sampleAdvisors
      true "c1" = [] :=
  (claim10_pause_blocks_analysis (fun _ _ => [({ name := "vsa", risk := 10 }, ["LONG"])])
    sampleAdvisors "c1").1

end Yatb
